import Mathlib

/-!
Verification of the globepretty Globe-extension controller.

The development is a shallow embedding of `globepretty.js` (the revision
whose documentation header announces version 1.0.0): the interaction-driven
spin state machine, the altitude-to-opacity/camera mapping, the cloud
overlay lifecycle and the solar sub-point computation.  JavaScript numbers
are modelled as exact rationals (`ℚ`); the transcendental camera-tilt hump
(`Math.cos`) is modelled over `ℝ`.  JavaScript `null`/`undefined` values are
modelled with `Option`.  Externally owned collaborator fields written by the
module (the orbit controls' `autoRotate`/`autoRotateSpeed`, the camera's
`near`/`far`, the controls' `minDistance`/`maxDistance`/`facing.y`, the
shader uniforms) are carried in the state record so that the write-only
signals the controller produces can be observed.
-/

/-- Day-mode option of the constructor: `'day'`, `'night'` or `'daynight'`. -/
inductive DayMode where
  | day
  | night
  | daynight
deriving DecidableEq, Repr

/-- Capabilities of the selected planet record that the claims depend on:
whether the planet entry carries a `nightImageURL` and whether it carries a
`cloudsURL`.  (From the `_planet` table: earth has both, moon has neither.) -/
structure PlanetCaps where
  nightImageURL : Bool
  cloudsURL : Bool
deriving DecidableEq, Repr

/-- The `earth` entry of the `_planet` table: it has `nightImageURL` and
`cloudsURL`. -/
def earthCaps : PlanetCaps := { nightImageURL := true, cloudsURL := true }

/-- The `moon` entry of the `_planet` table: it has neither a night image
nor a clouds image. -/
def moonCaps : PlanetCaps := { nightImageURL := false, cloudsURL := false }

/-- Configuration surface of the module: the `opts` fields the embedded
operations read, the selected planet's capabilities, and the two values the
module queries on demand from the external widget (`g.getGlobeRadius()` and
`g.globeTileEngineMaxLevel()`). -/
structure Config where
  autoRotateSpeed : ℚ
  autoSpinAfterIdleMs : ℚ
  interactionSpinThreshold : ℚ
  onlySpinAboveAltitude : ℚ
  tileEngineURL : Bool
  dayMode : DayMode
  planet : PlanetCaps
  radius : ℚ
  maxTileLevel : ℕ
deriving DecidableEq

/-- The defaults merged into `opts` by the constructor (`autoRotateSpeed:
0.35`, `autoSpinAfterIdleMs: 15000`, `interactionSpinThreshold: .01`,
`onlySpinAboveAltitude: .4`, tile engine URL present, `dayMode: 'day'`,
`planet: 'earth'`).  The radius and maximum tile level are owned by the
external widget; concrete representative values are used. -/
def defaultConfig : Config :=
  { autoRotateSpeed := 0.35
    autoSpinAfterIdleMs := 15000
    interactionSpinThreshold := 0.01
    onlySpinAboveAltitude := 0.4
    tileEngineURL := true
    dayMode := DayMode.day
    planet := earthCaps
    radius := 100
    maxTileLevel := 20 }

/-- Embedding of `if (!planet.nightImageURL) opts.dayMode = 'day';` — the constructor
overwrites the requested day mode with `'day'` when the planet has no night
image.  All later reads of `opts.dayMode` observe this forced value. -/
def effectiveDayMode (cfg : Config) : DayMode :=
  if cfg.planet.nightImageURL = false then DayMode.day else cfg.dayMode

/-- A point-of-view sample `{lat, lng, altitude}` delivered by `onZoom`. -/
structure ViewSample where
  lat : ℚ
  lng : ℚ
  altitude : ℚ
deriving DecidableEq, Repr

/-- The mutable state of one Globe instance: module-private variables
(`_globeready`, `_nonInteractionTimer` as a pending absolute deadline,
`_prevLatLngAlt`, `_spinspeed`, `_surface`, `_solar`, `_prevSurfaceOpacity`,
`_cloudsshown`, `_clouds`) together with the externally owned fields the
module writes.  `lastTiltAlt` records the altitude last written through
`_changeCameraAngle`; the actual `controls.facing.y` value is
`tiltForAltitude` of it (see `tiltOut`).  `cloudBuilds` counts completed
executions of `_createClouds`. -/
structure GState where
  globeready : Bool
  nonInteractionTimer : Option ℚ
  prevLatLngAlt : Option ViewSample
  spinspeed : Option ℚ
  autoRotate : Bool
  autoRotateSpeed : Option ℚ
  surface : Bool
  solar : Bool
  prevSurfaceOpacity : Option ℚ
  opacity : ℚ
  cameraNear : ℚ
  cameraFar : ℚ
  minDistance : ℚ
  maxDistance : ℚ
  facingSet : Bool
  lastTiltAlt : Option ℚ
  globeRotation : Option (ℚ × ℚ)
  cloudsshown : Bool
  clouds : Bool
  cloudsInScene : Bool
  cloudBuilds : ℕ
deriving DecidableEq

/-- State at construction time: every module-private variable is
uninitialized (`undefined`/`false`/`0`).  `cameraNear` starts at the coarse
value `0.05` per the source comment "When we start, the camera is far from
the planet's surface and its near value is 0.05"; the other camera/control
distance fields start at placeholder values never observed before this
module first writes them. -/
def initState : GState :=
  { globeready := false
    nonInteractionTimer := none
    prevLatLngAlt := none
    spinspeed := none
    autoRotate := false
    autoRotateSpeed := none
    surface := false
    solar := false
    prevSurfaceOpacity := none
    opacity := 1
    cameraNear := 0.05
    cameraFar := 0
    minDistance := 0
    maxDistance := 0
    facingSet := false
    lastTiltAlt := none
    globeRotation := none
    cloudsshown := false
    clouds := false
    cloudsInScene := false
    cloudBuilds := 0 }

/-- Embedding of `g.spinGlobe(speed)`:
`speed == null` (loose equality, so `null` or `undefined`) reinstates
`_spinspeed = _spinspeed || opts.autoRotateSpeed` (a falsy — unset or zero —
remembered speed is replaced by the configured default); a truthy `speed`
(any non-zero number) overwrites `_spinspeed`; `speed === 0` leaves
`_spinspeed` alone.  Then `controls.autoRotate = speed === 0 ? false : true`
and `controls.autoRotateSpeed = _spinspeed`. -/
def spinGlobe (cfg : Config) (speed : Option ℚ) (st : GState) : GState :=
  let sp : Option ℚ :=
    match speed with
    | none =>
        match st.spinspeed with
        | none => some cfg.autoRotateSpeed
        | some v => if v = 0 then some cfg.autoRotateSpeed else some v
    | some s => if s = 0 then st.spinspeed else some s
  { st with
      spinspeed := sp
      autoRotate := if speed = some 0 then false else true
      autoRotateSpeed := sp }

/-- Embedding of `_onInteraction()`: ignored until `_globeready`; when
`opts.autoSpinAfterIdleMs > 0` it calls `g.spinGlobe(0)` and (re)starts the
single idle timer — `clearTimeout` of any pending timer followed by a
`setTimeout` of `opts.autoSpinAfterIdleMs`, modelled as overwriting the
pending deadline with `now + opts.autoSpinAfterIdleMs`. -/
def _onInteraction (cfg : Config) (now : ℚ) (st : GState) : GState :=
  if st.globeready = false then st
  else if cfg.autoSpinAfterIdleMs > 0 then
    let st1 := spinGlobe cfg (some 0) st
    { st1 with nonInteractionTimer := some (now + cfg.autoSpinAfterIdleMs) }
  else st

/-- The idle-timer callback (the body of the `setTimeout` in
`_onInteraction`), fired when the deadline passes without a further
interaction: it clears `_nonInteractionTimer` and, reading the current
point of view, calls `g.spinGlobe()` unless
`latlngalt.altitude > opts.onlySpinAboveAltitude` fails — i.e. it resumes
only when the altitude is strictly above the ceiling.  `altitude` is the
altitude of `g.pointOfView()` at firing time. -/
def idleTimerFire (cfg : Config) (altitude : ℚ) (st : GState) : GState :=
  let st1 := { st with nonInteractionTimer := none }
  if altitude > cfg.onlySpinAboveAltitude then spinGlobe cfg none st1 else st1

/-- JavaScript `x > 0` where `x` may be `undefined`: `undefined > 0` is
`false`. -/
def jsGTzero : Option ℚ → Prop
  | some p => p > 0
  | none => False

instance (o : Option ℚ) : Decidable (jsGTzero o) :=
  match o with
  | some p => inferInstanceAs (Decidable (p > 0))
  | none => inferInstanceAs (Decidable False)

/-- JavaScript `x === 0` where `x` may be `undefined`. -/
def jsEqZero : Option ℚ → Prop
  | some p => p = 0
  | none => False

instance (o : Option ℚ) : Decidable (jsEqZero o) :=
  match o with
  | some p => inferInstanceAs (Decidable (p = 0))
  | none => inferInstanceAs (Decidable False)

/-- The opacity computed inside `_changeSurfaceOpacity`:
`Math.min(1, Math.max(0, (altitude - opacity0alt) / (opacity1alt -
opacity0alt)))` with `opacity1alt = 1`, `opacity0alt = .4`. -/
def opacityForAltitude (altitude : ℚ) : ℚ :=
  min 1 (max 0 ((altitude - 0.4) / (1 - 0.4)))

/-- Embedding of `_changeCameraNear(near)`: writes `camera.near = near`,
`camera.far = g.getGlobeRadius() * 100`,
`controls.minDistance = g.getGlobeRadius() * (1 + 5 / 2**g.globeTileEngineMaxLevel())`,
`controls.maxDistance = camera.far - g.getGlobeRadius()`. -/
def _changeCameraNear (cfg : Config) (near : ℚ) (st : GState) : GState :=
  let far := cfg.radius * 100
  { st with
      cameraNear := near
      cameraFar := far
      minDistance := cfg.radius * (1 + 5 / 2 ^ cfg.maxTileLevel)
      maxDistance := far - cfg.radius }

/-- Embedding of `_changeCameraAngle(alt)`: computes
`y = _cosineHump(alt, center, width, maxTiltY)` with `maxTiltY = 80`,
`startTiltAlt = 0`, `endTiltAlt = .05`, `width = .05`, `center = .025`, and
writes it to `controls.facing.y` when `controls.facing` exists.  The state
records the altitude written; the real-valued `facing.y` it denotes is
recovered by `tiltOut` below. -/
def _changeCameraAngle (alt : ℚ) (st : GState) : GState :=
  if st.facingSet then { st with lastTiltAlt := some alt } else st

/-- Embedding of `_changeSurfaceOpacity(altitude)`: no-op without `_surface` or without
`opts.tileEngineURL`; otherwise computes the clamped linear opacity, writes
it to the material (shader uniform when `_solar`, else `material.opacity` —
one observable opacity either way), switches the camera near value at the
two opacity transitions across 0 (`_prevSurfaceOpacity > 0 && opacity === 0`
gives `_changeCameraNear(1e-5)`; `_prevSurfaceOpacity === 0 && opacity > 0`
gives `_changeCameraNear(0.05)`; an `undefined` previous opacity satisfies
neither comparison), records `_prevSurfaceOpacity = opacity`, and finally
calls `_changeCameraAngle(altitude)`. -/
def _changeSurfaceOpacity (cfg : Config) (altitude : ℚ) (st : GState) : GState :=
  if st.surface = false ∨ cfg.tileEngineURL = false then st
  else
    let opacity := opacityForAltitude altitude
    let st1 := { st with opacity := opacity }
    let st2 :=
      if jsGTzero st.prevSurfaceOpacity ∧ opacity = 0 then
        _changeCameraNear cfg 0.00001 st1
      else if jsEqZero st.prevSurfaceOpacity ∧ opacity > 0 then
        _changeCameraNear cfg 0.05 st1
      else st1
    let st3 := { st2 with prevSurfaceOpacity := some opacity }
    _changeCameraAngle altitude st3

/-- Embedding of `_updateSunRotation(latLngAlt)`: when both `_solar` and `_surface`
exist, writes `(lng, lat)` to the `globeRotation` shader uniform. -/
def _updateSunRotation (s : ViewSample) (st : GState) : GState :=
  if st.solar = true ∧ st.surface = true then
    { st with globeRotation := some (s.lng, s.lat) }
  else st

/-- Guard of the interaction branch of the `onZoom` handler:
`_prevLatLngAlt?.altitude != null && Math.abs(_prevLatLngAlt.altitude -
latLngAlt.altitude) > opts.interactionSpinThreshold`.  A missing previous
sample never counts as an interaction. -/
def interactionGuard (cfg : Config) (prev : Option ViewSample) (s : ViewSample) : Prop :=
  match prev with
  | some p => |p.altitude - s.altitude| > cfg.interactionSpinThreshold
  | none => False

instance (cfg : Config) (prev : Option ViewSample) (s : ViewSample) :
    Decidable (interactionGuard cfg prev s) :=
  match prev with
  | some _ => inferInstanceAs (Decidable (_ > _))
  | none => inferInstanceAs (Decidable False)

/-- Guard of the opacity branch of the `onZoom` handler:
`Math.abs(_prevLatLngAlt?.altitude - latLngAlt.altitude) > .00001`.  With no
previous sample the subtraction yields `NaN` and the comparison is `false`. -/
def opacityGuard (prev : Option ViewSample) (s : ViewSample) : Prop :=
  match prev with
  | some p => |p.altitude - s.altitude| > 0.00001
  | none => False

instance (prev : Option ViewSample) (s : ViewSample) : Decidable (opacityGuard prev s) :=
  match prev with
  | some _ => inferInstanceAs (Decidable (_ > _))
  | none => inferInstanceAs (Decidable False)

/-- Guard of the day/night branch of the `onZoom` handler:
`_prevLatLngAlt?.lat != latLngAlt.lat || _prevLatLngAlt?.lng !=
latLngAlt.lng`.  With no previous sample `undefined != number` is `true`. -/
def sunGuard (prev : Option ViewSample) (s : ViewSample) : Prop :=
  match prev with
  | some p => p.lat ≠ s.lat ∨ p.lng ≠ s.lng
  | none => True

instance (prev : Option ViewSample) (s : ViewSample) : Decidable (sunGuard prev s) :=
  match prev with
  | some _ => inferInstanceAs (Decidable (_ ∨ _))
  | none => inferInstanceAs (Decidable True)

/-- The handler installed by `g.onZoom(latLngAlt => ...)`, processing one
point-of-view sample: possibly an interaction, possibly an opacity/camera
recompute, possibly a sun-rotation uniform update (all three guards read the
previous sample, which is only replaced at the end). `now` is the wall-clock
time of the sample, used for the idle-timer deadline. -/
def onZoom (cfg : Config) (now : ℚ) (s : ViewSample) (st : GState) : GState :=
  let st1 :=
    if interactionGuard cfg st.prevLatLngAlt s then _onInteraction cfg now st else st
  let st2 :=
    if opacityGuard st.prevLatLngAlt s then _changeSurfaceOpacity cfg s.altitude st1 else st1
  let st3 :=
    if sunGuard st.prevLatLngAlt s then _updateSunRotation s st2 else st2
  { st3 with prevLatLngAlt := some s }

/-- Embedding of `g.showClouds(show)` (parameter renamed: `show` is a Lean keyword):
returns immediately when the request matches `_cloudsshown` or when the
planet has no `cloudsURL`; otherwise records the new flag and either builds
the mesh on first show (`_createClouds`, counted by `cloudBuilds`, which
ends by `_addClouds`), re-attaches an already built mesh (`_addClouds`), or
detaches the mesh from the scene on hide. -/
def showClouds (cfg : Config) (visible : Bool) (st : GState) : GState :=
  if visible = st.cloudsshown ∨ cfg.planet.cloudsURL = false then st
  else
    let st1 := { st with cloudsshown := visible }
    if visible then
      if st1.clouds = false then
        { st1 with clouds := true, cloudBuilds := st1.cloudBuilds + 1, cloudsInScene := true }
      else
        { st1 with cloudsInScene := true }
    else
      { st1 with cloudsInScene := false }

/-- State effect of a completed `_showSurface()`: the surface mesh exists,
`_loadThreeJS` has installed `controls.facing`, and `_solar` is loaded
exactly when the (night-image-forced) day mode is `'daynight'`. -/
def _showSurface (cfg : Config) (st : GState) : GState :=
  { st with
      surface := true
      facingSet := true
      solar := effectiveDayMode cfg = DayMode.daynight }

/-- Embedding of `setTimeout(() => _globeready = true, 1)` at the end of the
`onGlobeReady` handler. -/
def setReady (st : GState) : GState :=
  { st with globeready := true }

/-- States reachable by the controller: from `initState` through any
sequence of the module's events — becoming ready, the surface build
completing, external `spinGlobe` calls, point-of-view samples, idle-timer
expiry (at any current altitude) and cloud show/hide requests. -/
inductive Reach (cfg : Config) : GState → Prop
  | init : Reach cfg initState
  | ready {st : GState} : Reach cfg st → Reach cfg (setReady st)
  | surfaceShown {st : GState} : Reach cfg st → Reach cfg (_showSurface cfg st)
  | spin (speed : Option ℚ) {st : GState} : Reach cfg st → Reach cfg (spinGlobe cfg speed st)
  | zoom (now : ℚ) (s : ViewSample) {st : GState} : Reach cfg st → Reach cfg (onZoom cfg now s st)
  | timer (altitude : ℚ) {st : GState} : Reach cfg st → Reach cfg (idleTimerFire cfg altitude st)
  | cloudsReq (visible : Bool) {st : GState} : Reach cfg st → Reach cfg (showClouds cfg visible st)

open Classical in
/-- Embedding of `_cosineHump(x, center, width, height)`: zero outside
`[center - width/2, center + width/2]`, else
`height * (0.5 * (Math.cos((x - center) * (2 * Math.PI / width)) + 1))`. -/
noncomputable def _cosineHump (x center width height : ℝ) : ℝ :=
  let halfWidth := width / 2
  let xMin := center - halfWidth
  let xMax := center + halfWidth
  if x < xMin ∨ x > xMax then 0
  else
    let angleFullPeriod := (x - center) * (2 * Real.pi / width)
    height * (0.5 * (Real.cos angleFullPeriod + 1))

/-- The tilt written by `_changeCameraAngle`: `_cosineHump` at
`maxTiltY = 80`, `startTiltAlt = 0`, `endTiltAlt = .05`,
`width = endTiltAlt - startTiltAlt`, `center = startTiltAlt + width/2`. -/
noncomputable def tiltForAltitude (alt : ℝ) : ℝ :=
  let maxTiltY : ℝ := 80
  let startTiltAlt : ℝ := 0
  let endTiltAlt : ℝ := 0.05
  let width := endTiltAlt - startTiltAlt
  let center := startTiltAlt + width / 2
  _cosineHump alt center width maxTiltY

/-- The current `controls.facing.y` value denoted by the state: the tilt of
the altitude last written through `_changeCameraAngle` (or the untouched
initial facing when never written). -/
noncomputable def tiltOut (st : GState) : Option ℝ :=
  st.lastTiltAlt.map (fun a => tiltForAltitude (a : ℝ))

/-- Modelled from the spec: the repository's vendored
`dependency/solar-calculator.mjs` is not under the provided sources; per
spec §4.3 it supplies pure closed-form approximations — a century fraction
from a reference epoch, an equation-of-time and a solar-declination
polynomial fit — so it is modelled as a record of (automatically pure) Lean
functions. -/
structure SolarModule where
  century : ℤ → ℚ
  equationOfTime : ℚ → ℚ
  declination : ℚ → ℚ

/-- Embedding of `_sunPosAt(_solar, dt)`: `day = new Date(+dt).setUTCHours(0,0,0,0)` (the
most recent UTC midnight, a floor of the epoch-millisecond timestamp to a
multiple of 864e5 — JavaScript `Date` floors for negative timestamps as
well), `t = _solar.century(dt)`, `lng = (day - dt) / 864e5 * 360 - 180`,
returning `[lng - _solar.equationOfTime(t) / 4, _solar.declination(t)]`.
The function closes over the Globe instance state (`envSt`) but reads
nothing from it. -/
def _sunPosAt (envSt : GState) (solar : SolarModule) (dt : ℤ) : ℚ × ℚ :=
  let _ := envSt
  let day : ℤ := 86400000 * Int.fdiv dt 86400000
  let t := solar.century dt
  let lng : ℚ := ((day : ℚ) - (dt : ℚ)) / 86400000 * 360 - 180
  (lng - solar.equationOfTime t / 4, solar.declination t)

/-- The state after startup with the default configuration: `onGlobeReady`
has run (`_showSurface` completed because a tile engine URL is configured)
and the one-tick `_globeready` timeout has fired.  Equal to
`_showSurface defaultConfig (setReady initState)` (see `readyState_eq`). -/
def readyState : GState :=
  { initState with globeready := true, surface := true, facingSet := true }

/-- State after `readyState` processes the sample at altitude `1.5`:
only the previous sample is recorded (no previous sample existed, so no
interaction and no opacity recompute). -/
def stA1 : GState :=
  { readyState with prevLatLngAlt := some ⟨0, 0, 1.5⟩ }

/-- State after `stA1` processes the sample at altitude `2`: the altitude
jump is an interaction (idle deadline `0 + 15000`), the opacity recomputes
to `1`, and the tilt input is `2`. -/
def stA2 : GState :=
  { readyState with
      nonInteractionTimer := some 15000
      prevSurfaceOpacity := some 1
      lastTiltAlt := some 2
      prevLatLngAlt := some ⟨0, 0, 2⟩ }

/-- State after `stA2` processes the sample at altitude `0.3`: opacity falls
from `1` to `0`, which switches the camera near to the fine value `1e-5` and
recomputes far and the orbit distance bounds. -/
def stA3 : GState :=
  { readyState with
      nonInteractionTimer := some 15000
      opacity := 0
      prevSurfaceOpacity := some 0
      lastTiltAlt := some 0.3
      cameraNear := 0.00001
      cameraFar := 10000
      minDistance := 100 * (1 + 5 / 2 ^ 20)
      maxDistance := 9900
      prevLatLngAlt := some ⟨0, 0, 0.3⟩ }

/-- State after `stA1` processes the sample at altitude `0.31`: opacity
recomputes to `0`, but the previous opacity was still unset, so the camera
near is untouched. -/
def stB2 : GState :=
  { readyState with
      nonInteractionTimer := some 15000
      opacity := 0
      prevSurfaceOpacity := some 0
      lastTiltAlt := some 0.31
      prevLatLngAlt := some ⟨0, 0, 0.31⟩ }

/-- State after `stB2` processes the sample at altitude `0.3`: opacity stays
`0` (a `0 → 0` step is not a transition) and the camera near remains at its
initial coarse value. -/
def stB3 : GState :=
  { readyState with
      nonInteractionTimer := some 15000
      opacity := 0
      prevSurfaceOpacity := some 0
      lastTiltAlt := some 0.3
      prevLatLngAlt := some ⟨0, 0, 0.3⟩ }

/-- Run A: samples at altitudes `1.5`, `2`, `0.3` from the post-startup
state. -/
def runA : GState :=
  onZoom defaultConfig 0 ⟨0, 0, 0.3⟩
    (onZoom defaultConfig 0 ⟨0, 0, 2⟩ (onZoom defaultConfig 0 ⟨0, 0, 1.5⟩ readyState))

/-- Run B: samples at altitudes `1.5`, `0.31`, `0.3` from the post-startup
state — it ends at the same latest sample as run A. -/
def runB : GState :=
  onZoom defaultConfig 0 ⟨0, 0, 0.3⟩
    (onZoom defaultConfig 0 ⟨0, 0, 0.31⟩ (onZoom defaultConfig 0 ⟨0, 0, 1.5⟩ readyState))

/-- The default configuration with the auto-rotate speed configured to `0`
(documented: "Zero speed stops it"). -/
def zeroSpeedConfig : Config :=
  { defaultConfig with autoRotateSpeed := 0 }

/-- The default configuration pointed at the moon planet (no night image,
no clouds image) with day/night blending requested. -/
def moonConfig : Config :=
  { defaultConfig with planet := moonCaps, dayMode := DayMode.daynight }

/-- A concrete solar module used to instantiate determinism statements. -/
def testSolar : SolarModule :=
  { century := fun dt => (dt : ℚ) / 3155760000000
    equationOfTime := fun t => t * 4
    declination := fun t => t }

/-! ### Evaluation lemmas for the guards and small helpers -/

@[simp] lemma interactionGuard_none (cfg : Config) (s : ViewSample) :
    interactionGuard cfg none s = False := rfl

@[simp] lemma interactionGuard_some (cfg : Config) (p s : ViewSample) :
    interactionGuard cfg (some p) s = (|p.altitude - s.altitude| > cfg.interactionSpinThreshold) := rfl

@[simp] lemma opacityGuard_none (s : ViewSample) : opacityGuard none s = False := rfl

@[simp] lemma opacityGuard_some (p s : ViewSample) :
    opacityGuard (some p) s = (|p.altitude - s.altitude| > 0.00001) := rfl

@[simp] lemma sunGuard_none (s : ViewSample) : sunGuard none s = True := rfl

@[simp] lemma sunGuard_some (p s : ViewSample) :
    sunGuard (some p) s = (p.lat ≠ s.lat ∨ p.lng ≠ s.lng) := rfl

@[simp] lemma jsGTzero_none : jsGTzero none = False := rfl

@[simp] lemma jsGTzero_some (p : ℚ) : jsGTzero (some p) = (p > 0) := rfl

@[simp] lemma jsEqZero_none : jsEqZero none = False := rfl

@[simp] lemma jsEqZero_some (p : ℚ) : jsEqZero (some p) = (p = 0) := rfl

/-! ### Frame lemmas: which fields each operation leaves untouched -/

@[simp] lemma spinGlobe_surface (cfg : Config) (v : Option ℚ) (st : GState) :
    (spinGlobe cfg v st).surface = st.surface := rfl

@[simp] lemma spinGlobe_facingSet (cfg : Config) (v : Option ℚ) (st : GState) :
    (spinGlobe cfg v st).facingSet = st.facingSet := rfl

@[simp] lemma spinGlobe_opacity (cfg : Config) (v : Option ℚ) (st : GState) :
    (spinGlobe cfg v st).opacity = st.opacity := rfl

@[simp] lemma spinGlobe_prevSurfaceOpacity (cfg : Config) (v : Option ℚ) (st : GState) :
    (spinGlobe cfg v st).prevSurfaceOpacity = st.prevSurfaceOpacity := rfl

@[simp] lemma spinGlobe_lastTiltAlt (cfg : Config) (v : Option ℚ) (st : GState) :
    (spinGlobe cfg v st).lastTiltAlt = st.lastTiltAlt := rfl

@[simp] lemma spinGlobe_cameraNear (cfg : Config) (v : Option ℚ) (st : GState) :
    (spinGlobe cfg v st).cameraNear = st.cameraNear := rfl

@[simp] lemma spinGlobe_cameraFar (cfg : Config) (v : Option ℚ) (st : GState) :
    (spinGlobe cfg v st).cameraFar = st.cameraFar := rfl

@[simp] lemma spinGlobe_minDistance (cfg : Config) (v : Option ℚ) (st : GState) :
    (spinGlobe cfg v st).minDistance = st.minDistance := rfl

@[simp] lemma spinGlobe_maxDistance (cfg : Config) (v : Option ℚ) (st : GState) :
    (spinGlobe cfg v st).maxDistance = st.maxDistance := rfl

@[simp] lemma spinGlobe_prevLatLngAlt (cfg : Config) (v : Option ℚ) (st : GState) :
    (spinGlobe cfg v st).prevLatLngAlt = st.prevLatLngAlt := rfl

@[simp] lemma spinGlobe_globeready (cfg : Config) (v : Option ℚ) (st : GState) :
    (spinGlobe cfg v st).globeready = st.globeready := rfl

/-- Calling `spinGlobe(0)` never overwrites the remembered speed. -/
@[simp] lemma spinGlobe_zero_spinspeed (cfg : Config) (st : GState) :
    (spinGlobe cfg (some 0) st).spinspeed = st.spinspeed := by
  simp [spinGlobe]

lemma _onInteraction_surface (cfg : Config) (now : ℚ) (st : GState) :
    (_onInteraction cfg now st).surface = st.surface := by
  unfold _onInteraction; split_ifs <;> rfl

lemma _onInteraction_facingSet (cfg : Config) (now : ℚ) (st : GState) :
    (_onInteraction cfg now st).facingSet = st.facingSet := by
  unfold _onInteraction; split_ifs <;> rfl

lemma _onInteraction_opacity (cfg : Config) (now : ℚ) (st : GState) :
    (_onInteraction cfg now st).opacity = st.opacity := by
  unfold _onInteraction; split_ifs <;> rfl

lemma _onInteraction_prevSurfaceOpacity (cfg : Config) (now : ℚ) (st : GState) :
    (_onInteraction cfg now st).prevSurfaceOpacity = st.prevSurfaceOpacity := by
  unfold _onInteraction; split_ifs <;> rfl

lemma _onInteraction_lastTiltAlt (cfg : Config) (now : ℚ) (st : GState) :
    (_onInteraction cfg now st).lastTiltAlt = st.lastTiltAlt := by
  unfold _onInteraction; split_ifs <;> rfl

lemma _onInteraction_cameraNear (cfg : Config) (now : ℚ) (st : GState) :
    (_onInteraction cfg now st).cameraNear = st.cameraNear := by
  unfold _onInteraction; split_ifs <;> rfl

lemma _onInteraction_cameraFar (cfg : Config) (now : ℚ) (st : GState) :
    (_onInteraction cfg now st).cameraFar = st.cameraFar := by
  unfold _onInteraction; split_ifs <;> rfl

lemma _onInteraction_minDistance (cfg : Config) (now : ℚ) (st : GState) :
    (_onInteraction cfg now st).minDistance = st.minDistance := by
  unfold _onInteraction; split_ifs <;> rfl

lemma _onInteraction_maxDistance (cfg : Config) (now : ℚ) (st : GState) :
    (_onInteraction cfg now st).maxDistance = st.maxDistance := by
  unfold _onInteraction; split_ifs <;> rfl

lemma _onInteraction_spinspeed (cfg : Config) (now : ℚ) (st : GState) :
    (_onInteraction cfg now st).spinspeed = st.spinspeed := by
  unfold _onInteraction; split_ifs <;> simp

lemma _updateSunRotation_frame (s : ViewSample) (st : GState) :
    (_updateSunRotation s st).opacity = st.opacity ∧
    (_updateSunRotation s st).prevSurfaceOpacity = st.prevSurfaceOpacity ∧
    (_updateSunRotation s st).lastTiltAlt = st.lastTiltAlt ∧
    (_updateSunRotation s st).cameraNear = st.cameraNear ∧
    (_updateSunRotation s st).cameraFar = st.cameraFar ∧
    (_updateSunRotation s st).minDistance = st.minDistance ∧
    (_updateSunRotation s st).maxDistance = st.maxDistance ∧
    (_updateSunRotation s st).spinspeed = st.spinspeed ∧
    (_updateSunRotation s st).facingSet = st.facingSet := by
  unfold _updateSunRotation; split_ifs <;> exact ⟨rfl, rfl, rfl, rfl, rfl, rfl, rfl, rfl, rfl⟩

lemma _changeCameraNear_frame (cfg : Config) (near : ℚ) (st : GState) :
    (_changeCameraNear cfg near st).opacity = st.opacity ∧
    (_changeCameraNear cfg near st).prevSurfaceOpacity = st.prevSurfaceOpacity ∧
    (_changeCameraNear cfg near st).lastTiltAlt = st.lastTiltAlt ∧
    (_changeCameraNear cfg near st).facingSet = st.facingSet ∧
    (_changeCameraNear cfg near st).spinspeed = st.spinspeed := by
  exact ⟨rfl, rfl, rfl, rfl, rfl⟩

lemma _changeCameraAngle_frame (alt : ℚ) (st : GState) :
    (_changeCameraAngle alt st).opacity = st.opacity ∧
    (_changeCameraAngle alt st).prevSurfaceOpacity = st.prevSurfaceOpacity ∧
    (_changeCameraAngle alt st).cameraNear = st.cameraNear ∧
    (_changeCameraAngle alt st).cameraFar = st.cameraFar ∧
    (_changeCameraAngle alt st).minDistance = st.minDistance ∧
    (_changeCameraAngle alt st).maxDistance = st.maxDistance ∧
    (_changeCameraAngle alt st).spinspeed = st.spinspeed := by
  unfold _changeCameraAngle; split_ifs <;> exact ⟨rfl, rfl, rfl, rfl, rfl, rfl, rfl⟩

lemma _changeCameraAngle_lastTiltAlt (alt : ℚ) (st : GState) :
    (_changeCameraAngle alt st).lastTiltAlt =
      (if st.facingSet then some alt else st.lastTiltAlt) := by
  unfold _changeCameraAngle; split_ifs <;> rfl

lemma _changeSurfaceOpacity_spinspeed (cfg : Config) (alt : ℚ) (st : GState) :
    (_changeSurfaceOpacity cfg alt st).spinspeed = st.spinspeed := by
  simp only [_changeSurfaceOpacity, _changeCameraAngle, _changeCameraNear]
  split_ifs <;> rfl

/-- After a recompute with the overlay active, the written opacity and
recorded previous opacity are `opacityForAltitude` of the sample's altitude,
and the tilt input is that altitude (when `controls.facing` exists). -/
lemma _changeSurfaceOpacity_outputs (cfg : Config) (alt : ℚ) (st : GState)
    (hs : st.surface = true) (ht : cfg.tileEngineURL = true) :
    (_changeSurfaceOpacity cfg alt st).opacity = opacityForAltitude alt ∧
    (_changeSurfaceOpacity cfg alt st).prevSurfaceOpacity = some (opacityForAltitude alt) ∧
    (_changeSurfaceOpacity cfg alt st).lastTiltAlt =
      (if st.facingSet then some alt else st.lastTiltAlt) ∧
    (_changeSurfaceOpacity cfg alt st).facingSet = st.facingSet := by
  simp only [_changeSurfaceOpacity, _changeCameraAngle, _changeCameraNear, hs, ht]
  split_ifs <;> simp_all

/-- The downward opacity transition (`_prevSurfaceOpacity > 0` and new
opacity `0`) switches the camera to the fine near value `1e-5` and
recomputes far and the orbit distance bounds. -/
lemma _changeSurfaceOpacity_near_down (cfg : Config) (alt : ℚ) (st : GState)
    (hs : st.surface = true) (ht : cfg.tileEngineURL = true)
    (hp : jsGTzero st.prevSurfaceOpacity) (h0 : opacityForAltitude alt = 0) :
    (_changeSurfaceOpacity cfg alt st).cameraNear = 0.00001 ∧
    (_changeSurfaceOpacity cfg alt st).cameraFar = cfg.radius * 100 ∧
    (_changeSurfaceOpacity cfg alt st).minDistance = cfg.radius * (1 + 5 / 2 ^ cfg.maxTileLevel) ∧
    (_changeSurfaceOpacity cfg alt st).maxDistance = cfg.radius * 100 - cfg.radius := by
  simp only [_changeSurfaceOpacity, _changeCameraAngle, _changeCameraNear]
  rw [if_neg (show ¬(st.surface = false ∨ cfg.tileEngineURL = false) by simp [hs, ht])]
  rw [if_pos (And.intro hp h0)]
  split_ifs <;> exact ⟨rfl, rfl, rfl, rfl⟩

/-- The upward opacity transition (`_prevSurfaceOpacity === 0` and new
opacity `> 0`) switches the camera back to the coarse near value `0.05` and
recomputes far and the orbit distance bounds. -/
lemma _changeSurfaceOpacity_near_up (cfg : Config) (alt : ℚ) (st : GState)
    (hs : st.surface = true) (ht : cfg.tileEngineURL = true)
    (hp : jsEqZero st.prevSurfaceOpacity) (h0 : opacityForAltitude alt > 0) :
    (_changeSurfaceOpacity cfg alt st).cameraNear = 0.05 ∧
    (_changeSurfaceOpacity cfg alt st).cameraFar = cfg.radius * 100 ∧
    (_changeSurfaceOpacity cfg alt st).minDistance = cfg.radius * (1 + 5 / 2 ^ cfg.maxTileLevel) ∧
    (_changeSurfaceOpacity cfg alt st).maxDistance = cfg.radius * 100 - cfg.radius := by
  have hno : ¬(jsGTzero st.prevSurfaceOpacity ∧ opacityForAltitude alt = 0) := by
    rintro ⟨-, h⟩; rw [h] at h0; exact lt_irrefl 0 h0
  simp only [_changeSurfaceOpacity, _changeCameraAngle, _changeCameraNear]
  rw [if_neg (show ¬(st.surface = false ∨ cfg.tileEngineURL = false) by simp [hs, ht])]
  rw [if_neg hno, if_pos (And.intro hp h0)]
  split_ifs <;> exact ⟨rfl, rfl, rfl, rfl⟩

/-- When neither opacity transition across 0 occurs (including when the
surface overlay or the tile engine is absent), the camera near/far and the
orbit distance bounds are left untouched. -/
lemma _changeSurfaceOpacity_near_same (cfg : Config) (alt : ℚ) (st : GState)
    (h : ¬(jsGTzero st.prevSurfaceOpacity ∧ opacityForAltitude alt = 0) ∧
         ¬(jsEqZero st.prevSurfaceOpacity ∧ opacityForAltitude alt > 0)) :
    (_changeSurfaceOpacity cfg alt st).cameraNear = st.cameraNear ∧
    (_changeSurfaceOpacity cfg alt st).cameraFar = st.cameraFar ∧
    (_changeSurfaceOpacity cfg alt st).minDistance = st.minDistance ∧
    (_changeSurfaceOpacity cfg alt st).maxDistance = st.maxDistance := by
  simp only [_changeSurfaceOpacity, _changeCameraAngle, _changeCameraNear]
  by_cases hg : st.surface = false ∨ cfg.tileEngineURL = false
  · rw [if_pos hg]; exact ⟨rfl, rfl, rfl, rfl⟩
  · rw [if_neg hg, if_neg h.1, if_neg h.2]
    split_ifs <;> exact ⟨rfl, rfl, rfl, rfl⟩

/-! ### The tilt hump function -/

lemma tiltForAltitude_eq (x : ℝ) : tiltForAltitude x = _cosineHump x 0.025 0.05 80 := by
  unfold tiltForAltitude
  norm_num

lemma _cosineHump_symm (c w h d : ℝ) :
    _cosineHump (c + d) c w h = _cosineHump (c - d) c w h := by
  simp only [_cosineHump]
  by_cases h1 : c + d < c - w / 2 ∨ c + d > c + w / 2
  · have h2 : c - d < c - w / 2 ∨ c - d > c + w / 2 := by
      rcases h1 with h1 | h1
      · right; linarith
      · left; linarith
    rw [if_pos h1, if_pos h2]
  · have h2 : ¬(c - d < c - w / 2 ∨ c - d > c + w / 2) := by
      push_neg at h1 ⊢
      constructor <;> linarith [h1.1, h1.2]
    rw [if_neg h1, if_neg h2]
    have e1 : c + d - c = d := by ring
    have e2 : c - d - c = -d := by ring
    rw [e1, e2, neg_mul, Real.cos_neg]

/-- C4: outside `[0, 0.05]` the camera tilt is `0`; inside it equals
`80 × 0.5 × (cos((a − 0.025) × 2π / 0.05) + 1)`; at the midpoint `0.025` it
equals the configured maximum tilt `80`; and the function is symmetric about
`0.025`. -/
theorem tiltForAltitude_spec (a : ℝ) :
    ((a < 0 ∨ a > 0.05) → tiltForAltitude a = 0) ∧
    (0 ≤ a → a ≤ 0.05 →
      tiltForAltitude a = 80 * (0.5 * (Real.cos ((a - 0.025) * (2 * Real.pi / 0.05)) + 1))) ∧
    tiltForAltitude 0.025 = (80 : ℝ) ∧
    (∀ d : ℝ, tiltForAltitude (0.025 + d) = tiltForAltitude (0.025 - d)) := by
  refine ⟨?_, ?_, ?_, ?_⟩
  · intro h
    rw [tiltForAltitude_eq]
    simp only [_cosineHump]
    have hc : a < 0.025 - 0.05 / 2 ∨ a > 0.025 + 0.05 / 2 := by
      rcases h with h | h
      · left; norm_num; linarith
      · right; norm_num; linarith
    rw [if_pos hc]
  · intro h1 h2
    rw [tiltForAltitude_eq]
    simp only [_cosineHump]
    have hc : ¬(a < 0.025 - 0.05 / 2 ∨ a > 0.025 + 0.05 / 2) := by
      push_neg
      constructor <;> norm_num <;> linarith
    rw [if_neg hc]
  · rw [tiltForAltitude_eq]
    simp only [_cosineHump]
    have hc : ¬((0.025 : ℝ) < 0.025 - 0.05 / 2 ∨ (0.025 : ℝ) > 0.025 + 0.05 / 2) := by
      push_neg
      constructor <;> norm_num
    rw [if_neg hc]
    norm_num [Real.cos_zero]
  · intro d
    rw [tiltForAltitude_eq, tiltForAltitude_eq]
    exact _cosineHump_symm 0.025 0.05 80 d

/-- C4 witness: concrete instances of `tiltForAltitude_spec` — `0.1` lies
outside the support so the tilt is `0`, and at `0.01` (inside `[0, 0.05]`)
the tilt equals the cosine-hump formula. -/
theorem tiltForAltitude_spec_witness :
    (((0.1 : ℝ) < 0 ∨ (0.1 : ℝ) > 0.05) ∧ tiltForAltitude 0.1 = 0) ∧
    ((0 : ℝ) ≤ 0.01 ∧ (0.01 : ℝ) ≤ 0.05 ∧
      tiltForAltitude 0.01 =
        80 * (0.5 * (Real.cos (((0.01 : ℝ) - 0.025) * (2 * Real.pi / 0.05)) + 1))) :=
  ⟨⟨Or.inr (by norm_num), (tiltForAltitude_spec 0.1).1 (Or.inr (by norm_num))⟩,
   by norm_num, by norm_num,
   (tiltForAltitude_spec 0.01).2.1 (by norm_num) (by norm_num)⟩

/-- C3: the surface opacity is `0` at altitudes `≤ 0.4`, `1` at altitudes
`≥ 1.0`, equals the linear ramp `(a − 0.4)/(1.0 − 0.4)` strictly in between,
and is monotone non-decreasing. -/
theorem opacityForAltitude_spec (a : ℚ) :
    (a ≤ 0.4 → opacityForAltitude a = 0) ∧
    (1 ≤ a → opacityForAltitude a = 1) ∧
    (0.4 < a → a < 1 → opacityForAltitude a = (a - 0.4) / (1 - 0.4)) ∧
    (∀ b, a ≤ b → opacityForAltitude a ≤ opacityForAltitude b) := by
  refine ⟨?_, ?_, ?_, ?_⟩
  · intro h
    have hx : (a - 0.4) / (1 - 0.4) ≤ 0 := by
      apply div_nonpos_of_nonpos_of_nonneg
      · linarith
      · norm_num
    unfold opacityForAltitude
    rw [max_eq_left hx]
    norm_num
  · intro h
    have hx : (1 : ℚ) ≤ (a - 0.4) / (1 - 0.4) := by
      rw [le_div_iff₀ (by norm_num : (0:ℚ) < 1 - 0.4)]
      linarith
    unfold opacityForAltitude
    rw [max_eq_right (le_trans zero_le_one hx), min_eq_left hx]
  · intro h1 h2
    have hx0 : (0 : ℚ) ≤ (a - 0.4) / (1 - 0.4) := by
      apply div_nonneg
      · linarith
      · norm_num
    have hx1 : (a - 0.4) / (1 - 0.4) ≤ 1 := by
      rw [div_le_one (by norm_num : (0:ℚ) < 1 - 0.4)]
      linarith
    unfold opacityForAltitude
    rw [max_eq_right hx0, min_eq_right hx1]
  · intro b hab
    unfold opacityForAltitude
    have hd : (a - 0.4) / (1 - 0.4) ≤ (b - 0.4) / (1 - 0.4) := by
      apply div_le_div_of_nonneg_right ?_ ?_
      · linarith
      · norm_num
    exact min_le_min (le_refl 1) (max_le_max (le_refl 0) hd)

/-- C3 witness: concrete instances of `opacityForAltitude_spec` at `0.3`
(below the ramp), `1.2` (above), `0.7` (on the ramp) and the monotone pair
`0.5 ≤ 0.8`. -/
theorem opacityForAltitude_spec_witness :
    ((0.3 : ℚ) ≤ 0.4 ∧ opacityForAltitude 0.3 = 0) ∧
    ((1 : ℚ) ≤ 1.2 ∧ opacityForAltitude 1.2 = 1) ∧
    ((0.4 : ℚ) < 0.7 ∧ (0.7 : ℚ) < 1 ∧
      opacityForAltitude 0.7 = ((0.7 : ℚ) - 0.4) / (1 - 0.4)) ∧
    ((0.5 : ℚ) ≤ 0.8 ∧ opacityForAltitude 0.5 ≤ opacityForAltitude 0.8) :=
  ⟨⟨by norm_num, (opacityForAltitude_spec 0.3).1 (by norm_num)⟩,
   ⟨by norm_num, (opacityForAltitude_spec 1.2).2.1 (by norm_num)⟩,
   ⟨by norm_num, by norm_num, (opacityForAltitude_spec 0.7).2.2.1 (by norm_num) (by norm_num)⟩,
   ⟨by norm_num, (opacityForAltitude_spec 0.5).2.2.2 0.8 (by norm_num)⟩⟩

/-! ### Startup state -/

lemma readyState_eq : _showSurface defaultConfig (setReady initState) = readyState := by
  simp [readyState, _showSurface, setReady, initState, effectiveDayMode, defaultConfig, earthCaps]

/-! ### C1: idle-resume policy -/

/-- C1 (amended): after a qualifying interaction at `t0` stops the spin, the
single idle timer is armed to expire at exactly `t0 + D`; when it fires with
no further interaction, spin resumes exactly when the altitude recorded at
expiry is strictly GREATER than the configured ceiling
`onlySpinAboveAltitude` (sufficiently zoomed out); at altitudes `≤` the
ceiling the spin remains stopped (only the pending timer is cleared). -/
theorem spinResume_policy_amended (cfg : Config) (st : GState) (t0 a : ℚ)
    (hready : st.globeready = true) (hD : cfg.autoSpinAfterIdleMs > 0) :
    (_onInteraction cfg t0 st).autoRotate = false ∧
    (_onInteraction cfg t0 st).nonInteractionTimer = some (t0 + cfg.autoSpinAfterIdleMs) ∧
    ((idleTimerFire cfg a (_onInteraction cfg t0 st)).autoRotate = true ↔
      a > cfg.onlySpinAboveAltitude) ∧
    (idleTimerFire cfg a (_onInteraction cfg t0 st)).nonInteractionTimer = none := by
  have h1 : _onInteraction cfg t0 st =
      { spinGlobe cfg (some 0) st with
          nonInteractionTimer := some (t0 + cfg.autoSpinAfterIdleMs) } := by
    unfold _onInteraction
    rw [if_neg (by simp [hready]), if_pos hD]
  refine ⟨?_, ?_, ?_, ?_⟩
  · rw [h1]; simp [spinGlobe]
  · rw [h1]
  · rw [h1]
    unfold idleTimerFire
    by_cases hc : a > cfg.onlySpinAboveAltitude
    · rw [if_pos hc]
      simp [spinGlobe, hc]
    · rw [if_neg hc]
      simp [spinGlobe, hc]
  · rw [h1]
    unfold idleTimerFire
    split_ifs <;> simp [spinGlobe]

/-- C1 counterexample: with the default configuration (ceiling `0.4`), the
timer callback after an interaction RESUMES the spin at altitude `2 > 0.4`
and leaves it STOPPED at altitude `0.3 ≤ 0.4` — the reverse of the claimed
"resumes only if the altitude is ≤ the ceiling; otherwise remains
stopped". -/
theorem spinResume_policy_counterexample :
    ((2 : ℚ) > defaultConfig.onlySpinAboveAltitude ∧
      (idleTimerFire defaultConfig 2 (_onInteraction defaultConfig 0 readyState)).autoRotate = true) ∧
    ((0.3 : ℚ) ≤ defaultConfig.onlySpinAboveAltitude ∧
      (idleTimerFire defaultConfig 0.3 (_onInteraction defaultConfig 0 readyState)).autoRotate = false) := by
  norm_num [idleTimerFire, _onInteraction, spinGlobe, readyState, initState, defaultConfig]
  simp

/-- C1 witness: `spinResume_policy_amended` at the default configuration,
the post-startup state, interaction time `0` and expiry altitude `1`. -/
theorem spinResume_policy_amended_witness :
    readyState.globeready = true ∧ defaultConfig.autoSpinAfterIdleMs > 0 ∧
    ((_onInteraction defaultConfig 0 readyState).autoRotate = false ∧
     (_onInteraction defaultConfig 0 readyState).nonInteractionTimer =
       some (0 + defaultConfig.autoSpinAfterIdleMs) ∧
     ((idleTimerFire defaultConfig 1 (_onInteraction defaultConfig 0 readyState)).autoRotate = true ↔
       (1 : ℚ) > defaultConfig.onlySpinAboveAltitude) ∧
     (idleTimerFire defaultConfig 1 (_onInteraction defaultConfig 0 readyState)).nonInteractionTimer = none) :=
  ⟨rfl, by norm_num [defaultConfig],
   spinResume_policy_amended defaultConfig readyState 0 1 rfl (by norm_num [defaultConfig])⟩

/-! ### C5 and C10: remembered spin speed -/

/-- C5: after an explicit non-zero speed `s` is set by `spinGlobe(s)`,
calling `spinGlobe(0)` (deactivate) and then `spinGlobe(null/undefined)`
re-activates rotation at `s` — the previously active non-zero speed, not the
configured default; and when no speed was ever remembered, a
`null`/`undefined` call activates the configured default speed. -/
theorem spinGlobe_restoresPreviousSpeed (cfg : Config) (st : GState) (s : ℚ) (hs : s ≠ 0) :
    ((spinGlobe cfg none (spinGlobe cfg (some 0) (spinGlobe cfg (some s) st))).autoRotate = true ∧
     (spinGlobe cfg none (spinGlobe cfg (some 0) (spinGlobe cfg (some s) st))).autoRotateSpeed = some s) ∧
    (st.spinspeed = none →
      (spinGlobe cfg none st).autoRotate = true ∧
      (spinGlobe cfg none st).autoRotateSpeed = some cfg.autoRotateSpeed) := by
  constructor
  · constructor
    · simp [spinGlobe]
    · simp [spinGlobe, hs]
  · intro h
    constructor
    · simp [spinGlobe]
    · simp [spinGlobe, h]

/-- C5 witness: `spinGlobe_restoresPreviousSpeed` at the default
configuration, the initial state, and explicit speed `2`. -/
theorem spinGlobe_restoresPreviousSpeed_witness :
    (2 : ℚ) ≠ 0 ∧
    (((spinGlobe defaultConfig none (spinGlobe defaultConfig (some 0) (spinGlobe defaultConfig (some 2) initState))).autoRotate = true ∧
      (spinGlobe defaultConfig none (spinGlobe defaultConfig (some 0) (spinGlobe defaultConfig (some 2) initState))).autoRotateSpeed = some 2) ∧
     (initState.spinspeed = none →
       (spinGlobe defaultConfig none initState).autoRotate = true ∧
       (spinGlobe defaultConfig none initState).autoRotateSpeed = some defaultConfig.autoRotateSpeed)) :=
  ⟨by norm_num, spinGlobe_restoresPreviousSpeed defaultConfig initState 2 (by norm_num)⟩

lemma spinGlobe_spinspeed_ne_zero (cfg : Config) (h0 : cfg.autoRotateSpeed ≠ 0)
    (v : Option ℚ) (st : GState) (ih : st.spinspeed ≠ some 0) :
    (spinGlobe cfg v st).spinspeed ≠ some 0 := by
  unfold spinGlobe
  cases v with
  | none =>
    cases hsp : st.spinspeed with
    | none => simpa [hsp] using fun h => h0 h
    | some w =>
      have hw : w ≠ 0 := fun h => ih (by rw [hsp, h])
      simp [hsp, hw]
  | some s =>
    by_cases hs : s = 0
    · simpa [hs] using ih
    · simp [hs]

lemma setReady_spinspeed (st : GState) : (setReady st).spinspeed = st.spinspeed := rfl

lemma _showSurface_spinspeed (cfg : Config) (st : GState) :
    (_showSurface cfg st).spinspeed = st.spinspeed := rfl

lemma showClouds_spinspeed (cfg : Config) (b : Bool) (st : GState) :
    (showClouds cfg b st).spinspeed = st.spinspeed := by
  simp only [showClouds]
  split_ifs <;> rfl

lemma _updateSunRotation_spinspeed (s : ViewSample) (st : GState) :
    (_updateSunRotation s st).spinspeed = st.spinspeed := by
  unfold _updateSunRotation
  split_ifs <;> rfl

lemma onZoom_spinspeed (cfg : Config) (now : ℚ) (s : ViewSample) (st : GState) :
    (onZoom cfg now s st).spinspeed = st.spinspeed := by
  simp only [onZoom]
  split_ifs <;>
    simp [_updateSunRotation_spinspeed, _changeSurfaceOpacity_spinspeed, _onInteraction_spinspeed]

lemma idleTimerFire_spinspeed_ne_zero (cfg : Config) (h0 : cfg.autoRotateSpeed ≠ 0)
    (a : ℚ) (st : GState) (ih : st.spinspeed ≠ some 0) :
    (idleTimerFire cfg a st).spinspeed ≠ some 0 := by
  unfold idleTimerFire
  split_ifs
  · exact spinGlobe_spinspeed_ne_zero cfg h0 none _ ih
  · exact ih

lemma reach_spinspeed_ne_zero (cfg : Config) (h0 : cfg.autoRotateSpeed ≠ 0) :
    ∀ st : GState, Reach cfg st → st.spinspeed ≠ some 0 := by
  intro st h
  induction h with
  | init => simp [initState]
  | ready _ ih => simpa [setReady_spinspeed] using ih
  | surfaceShown _ ih => simpa [_showSurface_spinspeed] using ih
  | spin speed _ ih => exact spinGlobe_spinspeed_ne_zero cfg h0 speed _ ih
  | zoom now s _ ih => simpa [onZoom_spinspeed] using ih
  | timer a _ ih => exact idleTimerFire_spinspeed_ne_zero cfg h0 a _ ih
  | cloudsReq b _ ih => simpa [showClouds_spinspeed] using ih

/-- C10 (amended): when the configured default speed is non-zero, the
remembered spin speed of every reachable state is non-zero; `spinGlobe(0)`
never overwrites the remembered speed; a numeric argument overwrites it only
when non-zero; once a non-zero speed `v` is remembered,
`spinGlobe(null/undefined)` re-activates rotation at `v`; and if
`spinGlobe(0)` arrives while the remembered speed is still unset, it stays
unset and the unset value is written to the controls' rotate-speed field.
(With a configured default of `0`, `spinGlobe(null)` on a fresh controller
records a zero remembered speed — see the counterexample.) -/
theorem spinspeed_nonzero_amended (cfg : Config) (st : GState) (v s : ℚ) :
    (cfg.autoRotateSpeed ≠ 0 → ∀ st' : GState, Reach cfg st' → st'.spinspeed ≠ some 0) ∧
    (spinGlobe cfg (some 0) st).spinspeed = st.spinspeed ∧
    (s ≠ 0 → (spinGlobe cfg (some s) st).spinspeed = some s) ∧
    (st.spinspeed = some v → v ≠ 0 →
      (spinGlobe cfg none st).autoRotate = true ∧
      (spinGlobe cfg none st).autoRotateSpeed = some v) ∧
    (st.spinspeed = none →
      (spinGlobe cfg (some 0) st).spinspeed = none ∧
      (spinGlobe cfg (some 0) st).autoRotateSpeed = none) := by
  refine ⟨reach_spinspeed_ne_zero cfg, by simp [spinGlobe], ?_, ?_, ?_⟩
  · intro hs
    simp [spinGlobe, hs]
  · intro hv hv0
    constructor
    · simp [spinGlobe]
    · simp [spinGlobe, hv, hv0]
  · intro h
    constructor
    · simp [spinGlobe, h]
    · simp [spinGlobe, h]

/-- C10 counterexample: with the auto-rotate speed configured to `0`, the
reachable state after a single `spinGlobe(null/undefined)` call has
remembered spin speed `some 0` — the claimed invariant "the remembered spin
speed is never zero" fails. -/
theorem spinspeed_nonzero_counterexample :
    Reach zeroSpeedConfig (spinGlobe zeroSpeedConfig none initState) ∧
    (spinGlobe zeroSpeedConfig none initState).spinspeed = some 0 :=
  ⟨Reach.spin none Reach.init, by simp [spinGlobe, initState, zeroSpeedConfig, defaultConfig]⟩

/-- C10 witness: `spinspeed_nonzero_amended` instantiated at the default
configuration and the initial state: the reachability invariant at
`initState`, overwrite by the non-zero speed `3`, and the first-call
`spinGlobe(0)` edge case. -/
theorem spinspeed_nonzero_amended_witness :
    (defaultConfig.autoRotateSpeed ≠ 0 ∧ initState.spinspeed ≠ some 0) ∧
    ((3 : ℚ) ≠ 0 ∧ (spinGlobe defaultConfig (some 3) initState).spinspeed = some 3) ∧
    (initState.spinspeed = none ∧
      (spinGlobe defaultConfig (some 0) initState).spinspeed = none ∧
      (spinGlobe defaultConfig (some 0) initState).autoRotateSpeed = none) :=
  ⟨⟨by norm_num [defaultConfig],
    (spinspeed_nonzero_amended defaultConfig initState 1 1).1 (by norm_num [defaultConfig])
      initState Reach.init⟩,
   ⟨by norm_num, (spinspeed_nonzero_amended defaultConfig initState 1 3).2.2.1 (by norm_num)⟩,
   ⟨rfl, (spinspeed_nonzero_amended defaultConfig initState 1 1).2.2.2.2 rfl⟩⟩

/-! ### C7 and C8: overlay lifecycle -/

/-- C7: a `showClouds` request whose visibility argument equals the current
visibility flag is a no-op, and from a hidden, never-built overlay state two
successive `showClouds(true)` calls trigger exactly one mesh build (the
second call is a no-op). -/
theorem showClouds_idempotent (cfg : Config) (st : GState) (b : Bool) :
    (b = st.cloudsshown → showClouds cfg b st = st) ∧
    (st.cloudsshown = false → st.clouds = false → cfg.planet.cloudsURL = true →
      (showClouds cfg true (showClouds cfg true st)).cloudBuilds = st.cloudBuilds + 1 ∧
      showClouds cfg true (showClouds cfg true st) = showClouds cfg true st) := by
  constructor
  · intro hb
    unfold showClouds
    rw [if_pos (Or.inl hb)]
  · intro h1 h2 h3
    have e1 : showClouds cfg true st =
        { st with cloudsshown := true, clouds := true, cloudsInScene := true,
                  cloudBuilds := st.cloudBuilds + 1 } := by
      simp only [showClouds]
      rw [if_neg (by simp [h1, h3])]
      simp [h2]
    have e2 : showClouds cfg true (showClouds cfg true st) = showClouds cfg true st := by
      rw [e1]
      simp [showClouds]
    constructor
    · rw [e2, e1]
    · exact e2

/-- C7 witness: `showClouds_idempotent` at the default configuration and
the initial (hidden, never-built) overlay state. -/
theorem showClouds_idempotent_witness :
    (false = initState.cloudsshown ∧ showClouds defaultConfig false initState = initState) ∧
    (initState.cloudsshown = false ∧ initState.clouds = false ∧
      defaultConfig.planet.cloudsURL = true ∧
      (showClouds defaultConfig true (showClouds defaultConfig true initState)).cloudBuilds =
        initState.cloudBuilds + 1) :=
  ⟨⟨rfl, (showClouds_idempotent defaultConfig initState false).1 rfl⟩,
   rfl, rfl, rfl,
   ((showClouds_idempotent defaultConfig initState false).2 rfl rfl rfl).1⟩

/-- C8: a planet with no night texture silently forces day-only rendering
for a requested `'night'` or `'daynight'` mode, and a planet with no cloud
texture makes every cloud show/hide request a no-op (the state — spin,
solar, camera and all — is returned unchanged, and the operations are total,
so no error is raised). -/
theorem missingCapability_degrades (cfg : Config) (st : GState) (b : Bool) :
    (cfg.planet.nightImageURL = false → effectiveDayMode cfg = DayMode.day) ∧
    (cfg.planet.cloudsURL = false → showClouds cfg b st = st) := by
  constructor
  · intro h
    unfold effectiveDayMode
    rw [if_pos h]
  · intro h
    unfold showClouds
    rw [if_pos (Or.inr h)]

/-- C8 witness: `missingCapability_degrades` at the moon configuration
(which requests `'daynight'` but has neither night nor cloud textures). -/
theorem missingCapability_degrades_witness :
    (moonConfig.planet.nightImageURL = false ∧ effectiveDayMode moonConfig = DayMode.day) ∧
    (moonConfig.planet.cloudsURL = false ∧ showClouds moonConfig true initState = initState) :=
  ⟨⟨rfl, (missingCapability_degrades moonConfig initState true).1 rfl⟩,
   ⟨rfl, (missingCapability_degrades moonConfig initState true).2 rfl⟩⟩

/-! ### C9: solar sub-point determinism -/

/-- C9: `_sunPosAt` is a deterministic pure function of the instant — two
calls with the same timestamp return the identical (longitude, latitude)
pair, whatever the controller state either call closes over; the embedded
function reads nothing from the mutable state. -/
theorem sunPosAt_deterministic (st st' : GState) (solar : SolarModule) (dt dt' : ℤ)
    (h : dt = dt') :
    _sunPosAt st solar dt = _sunPosAt st' solar dt' := by
  subst h
  rfl

/-- C9 witness: `sunPosAt_deterministic` at a concrete timestamp and two
different controller states. -/
theorem sunPosAt_deterministic_witness :
    (1700000000000 : ℤ) = 1700000000000 ∧
    _sunPosAt initState testSolar 1700000000000 =
      _sunPosAt (setReady initState) testSolar 1700000000000 :=
  ⟨rfl, sunPosAt_deterministic initState (setReady initState) testSolar
          1700000000000 1700000000000 rfl⟩

lemma _changeSurfaceOpacity_inactive (cfg : Config) (alt : ℚ) (st : GState)
    (h : st.surface = false ∨ cfg.tileEngineURL = false) :
    _changeSurfaceOpacity cfg alt st = st := by
  simp only [_changeSurfaceOpacity]
  rw [if_pos h]

/-- Decomposition of one `onZoom` step along the opacity path: when the
opacity recompute fires, the observable opacity/tilt/camera outputs of the
whole step are those of `_changeSurfaceOpacity` applied to an intermediate
state that agrees with the pre-state on every field that
`_changeSurfaceOpacity` reads or that the claims observe. -/
lemma onZoom_opacity_path (cfg : Config) (now : ℚ) (s : ViewSample) (st : GState)
    (hOG : opacityGuard st.prevLatLngAlt s) :
    ∃ st1 : GState,
      st1.surface = st.surface ∧ st1.facingSet = st.facingSet ∧
      st1.prevSurfaceOpacity = st.prevSurfaceOpacity ∧
      st1.cameraNear = st.cameraNear ∧ st1.cameraFar = st.cameraFar ∧
      st1.minDistance = st.minDistance ∧ st1.maxDistance = st.maxDistance ∧
      (onZoom cfg now s st).opacity = (_changeSurfaceOpacity cfg s.altitude st1).opacity ∧
      (onZoom cfg now s st).prevSurfaceOpacity =
        (_changeSurfaceOpacity cfg s.altitude st1).prevSurfaceOpacity ∧
      (onZoom cfg now s st).lastTiltAlt = (_changeSurfaceOpacity cfg s.altitude st1).lastTiltAlt ∧
      (onZoom cfg now s st).cameraNear = (_changeSurfaceOpacity cfg s.altitude st1).cameraNear ∧
      (onZoom cfg now s st).cameraFar = (_changeSurfaceOpacity cfg s.altitude st1).cameraFar ∧
      (onZoom cfg now s st).minDistance = (_changeSurfaceOpacity cfg s.altitude st1).minDistance ∧
      (onZoom cfg now s st).maxDistance = (_changeSurfaceOpacity cfg s.altitude st1).maxDistance := by
  refine ⟨if interactionGuard cfg st.prevLatLngAlt s then _onInteraction cfg now st else st,
          ?_, ?_, ?_, ?_, ?_, ?_, ?_, ?_, ?_, ?_, ?_, ?_, ?_, ?_⟩ <;>
    first
      | (split_ifs <;>
          simp [_onInteraction_surface, _onInteraction_facingSet,
                _onInteraction_prevSurfaceOpacity, _onInteraction_cameraNear,
                _onInteraction_cameraFar, _onInteraction_minDistance, _onInteraction_maxDistance])
      | (simp only [onZoom]
         rw [if_pos hOG]
         split_ifs <;>
           simp [(_updateSunRotation_frame s _).1, (_updateSunRotation_frame s _).2.1,
                 (_updateSunRotation_frame s _).2.2.1, (_updateSunRotation_frame s _).2.2.2.1,
                 (_updateSunRotation_frame s _).2.2.2.2.1, (_updateSunRotation_frame s _).2.2.2.2.2.1,
                 (_updateSunRotation_frame s _).2.2.2.2.2.2.1])

/-- When the opacity recompute does not fire, the camera fields of the step
equal those of the pre-state. -/
lemma onZoom_no_opacity (cfg : Config) (now : ℚ) (s : ViewSample) (st : GState)
    (hOG : ¬ opacityGuard st.prevLatLngAlt s) :
    (onZoom cfg now s st).cameraNear = st.cameraNear ∧
    (onZoom cfg now s st).cameraFar = st.cameraFar ∧
    (onZoom cfg now s st).minDistance = st.minDistance ∧
    (onZoom cfg now s st).maxDistance = st.maxDistance := by
  simp only [onZoom]
  rw [if_neg hOG]
  split_ifs <;>
    simp [_onInteraction_cameraNear, _onInteraction_cameraFar, _onInteraction_minDistance,
          _onInteraction_maxDistance,
          (_updateSunRotation_frame s _).2.2.2.1, (_updateSunRotation_frame s _).2.2.2.2.1,
          (_updateSunRotation_frame s _).2.2.2.2.2.1, (_updateSunRotation_frame s _).2.2.2.2.2.2.1]

/-! ### C2: altitude-derived outputs -/

/-- C2 (amended): at every sample whose altitude differs from the previous
sample's by more than the `1e-5` epsilon (while the surface overlay and tile
engine are active), the written surface opacity and recorded previous
opacity are the pure function `opacityForAltitude` of that sample's
altitude, and the written camera tilt is the pure function `tiltForAltitude`
of it.  The camera near distance, by contrast, is NOT a function of the
latest altitude alone: it is switched only at transitions of the retained
previous opacity across 0, so that retained value does choose the near
output (see the counterexample). -/
theorem altitudeOutputs_pure_amended (cfg : Config) (st : GState) (now : ℚ) (s : ViewSample)
    (hg : opacityGuard st.prevLatLngAlt s) (hs : st.surface = true)
    (ht : cfg.tileEngineURL = true) :
    (onZoom cfg now s st).opacity = opacityForAltitude s.altitude ∧
    (onZoom cfg now s st).prevSurfaceOpacity = some (opacityForAltitude s.altitude) ∧
    (st.facingSet = true →
      tiltOut (onZoom cfg now s st) = some (tiltForAltitude ((s.altitude : ℚ) : ℝ))) := by
  obtain ⟨st1, h1s, h1f, h1p, -, -, -, -, ho, hp, hl, -, -, -, -⟩ :=
    onZoom_opacity_path cfg now s st hg
  obtain ⟨co, cp, cl, -⟩ :=
    _changeSurfaceOpacity_outputs cfg s.altitude st1 (h1s.trans hs) ht
  refine ⟨ho.trans co, hp.trans cp, ?_⟩
  intro hf
  have : (onZoom cfg now s st).lastTiltAlt = some s.altitude := by
    rw [hl, cl, h1f, hf]
    simp
  unfold tiltOut
  rw [this]
  rfl

/-! ### C6: camera-near regime switches -/

/-- C6: within a sample step, the camera near value is set to the fine value
`1e-5` exactly when the recomputed opacity transitions from `> 0` (retained
previous opacity) to `0`, and back to the coarse value `0.05` exactly on the
reverse transition; at each switch the camera far distance and the orbit
min/max distances are recomputed from the globe radius and the maximum
tile-pyramid level (`far = R·100`, `min = R·(1 + 5/2^L)`,
`max = far − R`); on any sample with no such transition all four values are
left unchanged. -/
theorem cameraNear_transition_spec (cfg : Config) (st : GState) (now : ℚ) (s : ViewSample) :
    ((opacityGuard st.prevLatLngAlt s ∧ st.surface = true ∧ cfg.tileEngineURL = true ∧
      jsGTzero st.prevSurfaceOpacity ∧ opacityForAltitude s.altitude = 0) →
      (onZoom cfg now s st).cameraNear = 0.00001 ∧
      (onZoom cfg now s st).cameraFar = cfg.radius * 100 ∧
      (onZoom cfg now s st).minDistance = cfg.radius * (1 + 5 / 2 ^ cfg.maxTileLevel) ∧
      (onZoom cfg now s st).maxDistance = cfg.radius * 100 - cfg.radius) ∧
    ((opacityGuard st.prevLatLngAlt s ∧ st.surface = true ∧ cfg.tileEngineURL = true ∧
      jsEqZero st.prevSurfaceOpacity ∧ opacityForAltitude s.altitude > 0) →
      (onZoom cfg now s st).cameraNear = 0.05 ∧
      (onZoom cfg now s st).cameraFar = cfg.radius * 100 ∧
      (onZoom cfg now s st).minDistance = cfg.radius * (1 + 5 / 2 ^ cfg.maxTileLevel) ∧
      (onZoom cfg now s st).maxDistance = cfg.radius * 100 - cfg.radius) ∧
    (¬(opacityGuard st.prevLatLngAlt s ∧ st.surface = true ∧ cfg.tileEngineURL = true ∧
        ((jsGTzero st.prevSurfaceOpacity ∧ opacityForAltitude s.altitude = 0) ∨
         (jsEqZero st.prevSurfaceOpacity ∧ opacityForAltitude s.altitude > 0))) →
      (onZoom cfg now s st).cameraNear = st.cameraNear ∧
      (onZoom cfg now s st).cameraFar = st.cameraFar ∧
      (onZoom cfg now s st).minDistance = st.minDistance ∧
      (onZoom cfg now s st).maxDistance = st.maxDistance) := by
  refine ⟨?_, ?_, ?_⟩
  · rintro ⟨hg, hs, ht, hp, h0⟩
    obtain ⟨st1, h1s, -, h1p, -, -, -, -, -, -, -, hn, hf, hmin, hmax⟩ :=
      onZoom_opacity_path cfg now s st hg
    obtain ⟨cn, cf, cmin, cmax⟩ :=
      _changeSurfaceOpacity_near_down cfg s.altitude st1 (h1s.trans hs) ht
        (by rw [h1p]; exact hp) h0
    exact ⟨hn.trans cn, hf.trans cf, hmin.trans cmin, hmax.trans cmax⟩
  · rintro ⟨hg, hs, ht, hp, h0⟩
    obtain ⟨st1, h1s, -, h1p, -, -, -, -, -, -, -, hn, hf, hmin, hmax⟩ :=
      onZoom_opacity_path cfg now s st hg
    obtain ⟨cn, cf, cmin, cmax⟩ :=
      _changeSurfaceOpacity_near_up cfg s.altitude st1 (h1s.trans hs) ht
        (by rw [h1p]; exact hp) h0
    exact ⟨hn.trans cn, hf.trans cf, hmin.trans cmin, hmax.trans cmax⟩
  · intro hno
    by_cases hg : opacityGuard st.prevLatLngAlt s
    · obtain ⟨st1, h1s, -, h1p, h1n, h1f, h1min, h1max, -, -, -, hn, hf, hmin, hmax⟩ :=
        onZoom_opacity_path cfg now s st hg
      by_cases hst : st.surface = true ∧ cfg.tileEngineURL = true
      · have hnd : ¬(jsGTzero st1.prevSurfaceOpacity ∧ opacityForAltitude s.altitude = 0) := by
          rw [h1p]
          intro hd
          exact hno ⟨hg, hst.1, hst.2, Or.inl hd⟩
        have hnu : ¬(jsEqZero st1.prevSurfaceOpacity ∧ opacityForAltitude s.altitude > 0) := by
          rw [h1p]
          intro hu
          exact hno ⟨hg, hst.1, hst.2, Or.inr hu⟩
        obtain ⟨cn, cf, cmin, cmax⟩ :=
          _changeSurfaceOpacity_near_same cfg s.altitude st1 ⟨hnd, hnu⟩
        exact ⟨hn.trans (cn.trans h1n), hf.trans (cf.trans h1f),
               hmin.trans (cmin.trans h1min), hmax.trans (cmax.trans h1max)⟩
      · have hin : st1.surface = false ∨ cfg.tileEngineURL = false := by
          rcases not_and_or.mp hst with h | h
          · left
            rw [h1s]
            exact Bool.not_eq_true st.surface ▸ (by simpa using h)
          · right
            simpa using h
        have heq := _changeSurfaceOpacity_inactive cfg s.altitude st1 hin
        rw [heq] at hn hf hmin hmax
        exact ⟨hn.trans h1n, hf.trans h1f, hmin.trans h1min, hmax.trans h1max⟩
    · exact onZoom_no_opacity cfg now s st hg

lemma stepA1_eq : onZoom defaultConfig 0 ⟨0, 0, 1.5⟩ readyState = stA1 := by
  norm_num [onZoom, _updateSunRotation, readyState, initState, stA1]

lemma stepA2_eq : onZoom defaultConfig 0 ⟨0, 0, 2⟩ stA1 = stA2 := by
  norm_num [onZoom, _updateSunRotation, _onInteraction, spinGlobe, _changeSurfaceOpacity,
            _changeCameraAngle, _changeCameraNear, opacityForAltitude, lt_abs,
            readyState, initState, defaultConfig, earthCaps, stA1, stA2]

lemma stepA3_eq : onZoom defaultConfig 0 ⟨0, 0, 0.3⟩ stA2 = stA3 := by
  norm_num [onZoom, _updateSunRotation, _onInteraction, spinGlobe, _changeSurfaceOpacity,
            _changeCameraAngle, _changeCameraNear, opacityForAltitude, lt_abs,
            readyState, initState, defaultConfig, earthCaps, stA2, stA3]

lemma stepB2_eq : onZoom defaultConfig 0 ⟨0, 0, 0.31⟩ stA1 = stB2 := by
  norm_num [onZoom, _updateSunRotation, _onInteraction, spinGlobe, _changeSurfaceOpacity,
            _changeCameraAngle, _changeCameraNear, opacityForAltitude, lt_abs,
            readyState, initState, defaultConfig, earthCaps, stA1, stB2]

lemma stepB3_eq : onZoom defaultConfig 0 ⟨0, 0, 0.3⟩ stB2 = stB3 := by
  norm_num [onZoom, _updateSunRotation, _onInteraction, spinGlobe, _changeSurfaceOpacity,
            _changeCameraAngle, _changeCameraNear, opacityForAltitude, lt_abs,
            readyState, initState, defaultConfig, earthCaps, stB2, stB3]

/-- C2 counterexample: two reachable states produced by sample runs
`1.5, 2, 0.3` and `1.5, 0.31, 0.3` share the same latest sample (altitude
`0.3`) yet hold different camera near distances (`1e-5` vs the initial
coarse `0.05`) — the camera near output is not a pure function of the
latest `ViewSample.altitude`. -/
theorem altitudeOutputs_pure_counterexample :
    Reach defaultConfig runA ∧ Reach defaultConfig runB ∧
    runA.prevLatLngAlt = runB.prevLatLngAlt ∧
    runA.cameraNear ≠ runB.cameraNear := by
  have hready : Reach defaultConfig readyState := by
    rw [← readyState_eq]
    exact Reach.surfaceShown (Reach.ready Reach.init)
  refine ⟨Reach.zoom 0 _ (Reach.zoom 0 _ (Reach.zoom 0 _ hready)),
          Reach.zoom 0 _ (Reach.zoom 0 _ (Reach.zoom 0 _ hready)), ?_, ?_⟩
  · unfold runA runB
    rw [stepA1_eq, stepA2_eq, stepA3_eq, stepB2_eq, stepB3_eq]
    rfl
  · unfold runA runB
    rw [stepA1_eq, stepA2_eq, stepA3_eq, stepB2_eq, stepB3_eq]
    norm_num [stA3, stB3, readyState, initState]

/-- C2 witness: `altitudeOutputs_pure_amended` at the default
configuration, the state holding previous sample `1.5`, and a fresh sample
at altitude `0.5`. -/
theorem altitudeOutputs_pure_amended_witness :
    opacityGuard stA1.prevLatLngAlt ⟨0, 0, 0.5⟩ ∧ stA1.surface = true ∧
    defaultConfig.tileEngineURL = true ∧
    ((onZoom defaultConfig 0 ⟨0, 0, 0.5⟩ stA1).opacity =
       opacityForAltitude (ViewSample.mk 0 0 0.5).altitude ∧
     (onZoom defaultConfig 0 ⟨0, 0, 0.5⟩ stA1).prevSurfaceOpacity =
       some (opacityForAltitude (ViewSample.mk 0 0 0.5).altitude) ∧
     (stA1.facingSet = true →
       tiltOut (onZoom defaultConfig 0 ⟨0, 0, 0.5⟩ stA1) =
         some (tiltForAltitude (((ViewSample.mk 0 0 0.5).altitude : ℚ) : ℝ)))) :=
  ⟨by norm_num [stA1, readyState, initState, lt_abs], rfl, rfl,
   altitudeOutputs_pure_amended defaultConfig stA1 0 ⟨0, 0, 0.5⟩
     (by norm_num [stA1, readyState, initState, lt_abs]) rfl rfl⟩

/-- C6 witness: `cameraNear_transition_spec` (downward branch) at the state
whose retained opacity is `1` and a sample at altitude `0.3`, where opacity
recomputes to `0`: the camera near becomes `1e-5` and far/min/max are
recomputed from radius `100` and maximum tile level `20`. -/
theorem cameraNear_transition_spec_witness :
    (opacityGuard stA2.prevLatLngAlt ⟨0, 0, 0.3⟩ ∧ stA2.surface = true ∧
     defaultConfig.tileEngineURL = true ∧ jsGTzero stA2.prevSurfaceOpacity ∧
     opacityForAltitude (ViewSample.mk 0 0 0.3).altitude = 0) ∧
    ((onZoom defaultConfig 0 ⟨0, 0, 0.3⟩ stA2).cameraNear = 0.00001 ∧
     (onZoom defaultConfig 0 ⟨0, 0, 0.3⟩ stA2).cameraFar = defaultConfig.radius * 100 ∧
     (onZoom defaultConfig 0 ⟨0, 0, 0.3⟩ stA2).minDistance =
       defaultConfig.radius * (1 + 5 / 2 ^ defaultConfig.maxTileLevel) ∧
     (onZoom defaultConfig 0 ⟨0, 0, 0.3⟩ stA2).maxDistance =
       defaultConfig.radius * 100 - defaultConfig.radius) :=
  ⟨⟨by norm_num [stA2, readyState, initState, lt_abs], rfl, rfl,
    by norm_num [stA2, readyState, initState],
    by norm_num [opacityForAltitude]⟩,
   (cameraNear_transition_spec defaultConfig stA2 0 ⟨0, 0, 0.3⟩).1
     ⟨by norm_num [stA2, readyState, initState, lt_abs], rfl, rfl,
      by norm_num [stA2, readyState, initState],
      by norm_num [opacityForAltitude]⟩⟩
